import Mathlib

/-!
Verification of the Anthropic manifold pipe (`src/anthropic-function.py`).

The Python program is shallowly embedded below.  Python values that flow
through the pipe (message dicts, JSON-decoded events, payload fields) are
modelled by `PyVal`; Python exceptions by `PyErr`; fallible Python
expressions by `Except PyErr _`.  Python `float` arithmetic on image sizes
(`len(b64) * 3 / 4`, running totals of such values) is modelled by exact
rationals: all values involved are quarter-integers far below 2^53, where
IEEE double arithmetic is exact, so `ℚ` agrees with the Python semantics.
External library calls (`requests.head`, `json.loads`, the transport) are
modelled by their results, passed in as explicit inputs.
-/

set_option maxHeartbeats 1000000

namespace AnthropicPipe

/-- Python values as decoded from JSON and as carried through the pipe:
`None`, booleans, ints, floats (exact rationals), strings, lists, and
string-keyed dicts (association lists; first binding wins, mirroring the
unique-key dicts this program builds). -/
inductive PyVal where
  | null
  | bool (b : Bool)
  | int (n : Int)
  | float (q : ℚ)
  | str (s : String)
  | list (xs : List PyVal)
  | dict (kvs : List (String × PyVal))

/-- Structured payloads of the `ValueError`s this program raises; each
constructor records the data the Python code interpolates into the
exception message. -/
inductive ValErr where
  | modelEmpty
  | unpackMismatch
  | imageTooLargeInline (size : ℚ)
  | imageTooLargeRemote (n : Int)
  | totalTooLarge (total : ℚ)
  | intParse (s : String)

/-- Python exceptions that the embedded code can raise. -/
inductive PyErr where
  | keyError (k : String)
  | typeError (msg : String)
  | attributeError (msg : String)
  | indexError
  | valueError (v : ValErr)

/-- Python truthiness (`if x:`). -/
def pyTruthy : PyVal → Bool
  | .null => false
  | .bool b => b
  | .int n => n ≠ 0
  | .float q => q ≠ 0
  | .str s => s.data ≠ []
  | .list xs => !xs.isEmpty
  | .dict kvs => !kvs.isEmpty

/-- First-match lookup in a string-keyed association list (dict lookup). -/
def alistLookup (k : String) : List (String × PyVal) → Option PyVal
  | [] => none
  | (k₁, v) :: rest => if k₁ = k then some v else alistLookup k rest

/-- Python subscription `v[k]` with a string key: a dict lookup raising
`KeyError` on a missing key, and `TypeError` on every non-dict value (the
program never subscripts with a non-string key). -/
def pyGetItem (v : PyVal) (k : String) : Except PyErr PyVal :=
  match v with
  | .dict kvs =>
      match alistLookup k kvs with
      | some w => .ok w
      | none => .error (.keyError k)
  | .list _ => .error (.typeError "list indices must be integers or slices, not str")
  | .str _ => .error (.typeError "string indices must be integers")
  | _ => .error (.typeError "object is not subscriptable")

/-- The dict method `v.get(k, d)`: default on a missing key, and
`AttributeError` when the receiver is not a dict. -/
def pyDictGet (v : PyVal) (k : String) (d : PyVal) : Except PyErr PyVal :=
  match v with
  | .dict kvs =>
      match alistLookup k kvs with
      | some w => .ok w
      | none => .ok d
  | _ => .error (.attributeError "object has no attribute get")

/-- Boolean substring test on character lists, used for Python
`needle in haystackString`. -/
def strContainsSub (hay needle : List Char) : Bool :=
  hay.tails.any (fun t => needle.isPrefixOf t)

/-- Python equality `v == "k"` between an arbitrary value and a string
literal: true exactly on the equal string, false (no exception) on every
other value. -/
def pyEqStr (v : PyVal) (k : String) : Bool :=
  match v with
  | .str s => s = k
  | _ => false

/-- Python membership `"k" in v` (the program only ever tests string
literals for membership): key test on dicts, element test on lists,
substring test on strings, `TypeError` on non-containers. -/
def pyContains (v : PyVal) (k : String) : Except PyErr Bool :=
  match v with
  | .dict kvs => .ok (kvs.any (fun kv => kv.1 = k))
  | .list xs => .ok (xs.any (fun x => pyEqStr x k))
  | .str s => .ok (strContainsSub s.data k.data)
  | _ => .error (.typeError "argument is not iterable")

/-- Python `len(v)` for the values this program measures. -/
def pyLen (v : PyVal) : Except PyErr Nat :=
  match v with
  | .str s => .ok s.data.length
  | .list xs => .ok xs.length
  | .dict kvs => .ok kvs.length
  | _ => .error (.typeError "object has no len")

/-- Python iteration `for x in v`: elements of a list, one-character
strings of a string, keys of a dict, `TypeError` otherwise. -/
def pyIterate (v : PyVal) : Except PyErr (List PyVal) :=
  match v with
  | .list xs => .ok xs
  | .str s => .ok (s.data.map (fun c => .str (String.mk [c])))
  | .dict kvs => .ok (kvs.map (fun kv => .str kv.1))
  | _ => .error (.typeError "object is not iterable")

/-- Python list indexing `l[n]` for a nonnegative index, raising
`IndexError` out of range. -/
def pyIndex {α : Type} (l : List α) (n : Nat) : Except PyErr α :=
  match l.get? n with
  | some v => .ok v
  | none => .error .indexError

/-- Split a character list at the first occurrence of `c`: Python
`s.split(c, 1)`, returning the part before the first separator and, when a
separator exists, the (unsplit) remainder. -/
def splitOnce (c : Char) : List Char → List Char × Option (List Char)
  | [] => ([], none)
  | x :: xs =>
      if x = c then ([], some xs)
      else
        let r := splitOnce c xs
        (x :: r.1, r.2)

/-- Python `s.split(c)` on character lists (single-character separator,
no maxsplit): always returns a nonempty list of segments. -/
def pySplit (c : Char) : List Char → List (List Char)
  | [] => [[]]
  | x :: xs =>
      match pySplit c xs with
      | [] => [[]]
      | a :: rest => if x = c then [] :: a :: rest else (x :: a) :: rest

/-- Python `int(s)` on a string: optional surrounding whitespace, optional
sign, then a nonempty run of decimal digits; `none` models the
`ValueError` on any other shape. -/
def pyIntOfString (s : String) : Option Int :=
  let l := (s.data.dropWhile Char.isWhitespace).reverse.dropWhile Char.isWhitespace |>.reverse
  let core : List Char → Option Nat := fun ds =>
    if ds = [] then none
    else if ds.all Char.isDigit then
      some (ds.foldl (fun acc c => acc * 10 + (c.toNat - 48)) 0)
    else none
  match l with
  | '-' :: rest => (core rest).map (fun n => -(n : Int))
  | '+' :: rest => (core rest).map (fun n => (n : Int))
  | _ => (core l).map (fun n => (n : Int))

/-- The method call `v.split(sep, 1)` on a Python value: `AttributeError`
unless the receiver is a string; on a string, Python returns a one-element
list when no separator occurs and a two-element list otherwise. -/
def pySplitMethodOnce (v : PyVal) (c : Char) : Except PyErr (List PyVal) :=
  match v with
  | .str s =>
      match splitOnce c s.data with
      | (a, none) => .ok [.str (String.mk a)]
      | (a, some b) => .ok [.str (String.mk a), .str (String.mk b)]
  | _ => .error (.attributeError "object has no attribute split")

/-- Python `int(v)` applied to the result of `headers.get("content-length", 0)`:
the value is either the default int `0` or a header string, which must parse
as an integer (`ValueError` otherwise). -/
def pyIntCoerce : PyVal → Except PyErr Int
  | .int n => .ok n
  | .str s =>
      match pyIntOfString s with
      | some n => .ok n
      | none => .error (.valueError (.intParse s))
  | _ => .error (.typeError "int argument must be a string or a number")

/-- Per-image size limit from `Pipe.__init__`: 5 MB per image. -/
def MAX_IMAGE_SIZE : Int := 5 * 1024 * 1024

/-- Cumulative size limit from `Pipe.__init__`: 100 MB across all inline
images of one request. -/
def MAX_TOTAL_IMAGE_SIZE : Int := 100 * 1024 * 1024

/-- Outcome of the `requests.head` size probe for a remote image URL:
either the request raised a `requests.RequestException`, or it returned a
response whose `content-length` header is the given optional string. -/
inductive ProbeOut where
  | exn
  | resp (contentLength : Option String)

/-- Environment for remote-image probes: the probe outcome per URL.
The transport is external to the program, so its behaviour is an input. -/
def ProbeEnv : Type := String → ProbeOut

/-- The dict literal `{"type": "image", "source": {"type": "url", "url": url}}`
returned by `process_image` for a remote image. -/
def urlImageBlock (url : String) : PyVal :=
  .dict [("type", .str "image"),
         ("source", .dict [("type", .str "url"), ("url", .str url)])]

/-- Embedding of `Pipe.process_image`.  The data-URI branch splits the URL
at the first comma, extracts the media type between the first and second
colon up to the first semicolon, estimates the decoded size as
`len(base64) * 3 / 4`, and fails with the 5MB `ValueError` above the limit;
the remote branch probes the URL, tolerating a failed probe, and fails only
when a declared content length parses and exceeds the limit.  The trailing
Python `except (KeyError, ValueError): raise` re-raises unchanged and needs
no separate model. -/
def process_image (env : ProbeEnv) (image_data : PyVal) : Except PyErr PyVal :=
  match pyGetItem image_data "image_url" with
  | .error e => .error e
  | .ok iu =>
  match pyGetItem iu "url" with
  | .error e => .error e
  | .ok urlv =>
  match urlv with
  | .str url =>
    if "data:image".data.isPrefixOf url.data then
      match splitOnce ',' url.data with
      | (_, none) => .error (.valueError .unpackMismatch)
      | (mime_type, some base64_data) =>
        match pyIndex (pySplit ':' mime_type) 1 with
        | .error e => .error e
        | .ok seg =>
        match pyIndex (pySplit ';' seg) 0 with
        | .error e => .error e
        | .ok media_type =>
          let image_size : ℚ := (base64_data.length : ℚ) * 3 / 4
          if image_size > (MAX_IMAGE_SIZE : ℚ) then
            .error (.valueError (.imageTooLargeInline image_size))
          else
            .ok (.dict [("type", .str "image"),
                        ("source", .dict [("type", .str "base64"),
                                          ("media_type", .str (String.mk media_type)),
                                          ("data", .str (String.mk base64_data))])])
    else
      match env url with
      | .exn => .ok (urlImageBlock url)
      | .resp hdr =>
        let hv : PyVal := match hdr with | some s => .str s | none => .int 0
        match pyIntCoerce hv with
        | .error e => .error e
        | .ok content_length =>
          if content_length > MAX_IMAGE_SIZE then
            .error (.valueError (.imageTooLargeRemote content_length))
          else .ok (urlImageBlock url)
  | _ => .error (.attributeError "object has no attribute startswith")

/-- Embedding of `Pipe._extract_model_id`: empty input raises a
`ValueError`; an input containing "." is split at the first "." and the
part after it returned; otherwise the input is returned unchanged. -/
def _extract_model_id (model_string : PyVal) : Except PyErr PyVal :=
  if !pyTruthy model_string then .error (.valueError .modelEmpty)
  else
    match pyContains model_string "." with
    | .error e => .error e
    | .ok true =>
        match pySplitMethodOnce model_string '.' with
        | .error e => .error e
        | .ok parts => pyIndex parts 1
    | .ok false => .ok model_string

/-- Modelled from the spec: the external helper `pop_system_message`
(imported from `open_webui.utils.misc`, not part of this repository)
extracts a leading message with role `system`, if present, as plain text,
and removes it from the list. -/
def pop_system_message (messages : List PyVal) : Option PyVal × List PyVal :=
  match messages with
  | [] => (none, [])
  | m :: rest =>
      match pyDictGet m "role" .null with
      | .ok r =>
          if pyEqStr r "system" then ((pyDictGet m "content" (.str "")).toOption, rest)
          else (none, messages)
      | .error _ => (none, messages)

/-- Error values the body of `Pipe.pipe` converts into returned error
strings: the missing-credential check, the per-item image handler
(`"Error: Failed to process image: ..."`) and the model-id handler
(`"Error: Invalid model format: ..."`). -/
inductive RetErr where
  | notConfigured
  | failedImage (e : PyErr)
  | invalidModel (e : PyErr)

/-- Outcome of a statement sequence inside `Pipe.pipe`: normal value,
early `return` of an error string, or an exception escaping `pipe`
uncaught. -/
inductive Step (α : Type) where
  | ok (a : α)
  | earlyReturn (e : RetErr)
  | exn (e : PyErr)

/-- Body of the `try` block guarding one `image_url` item inside the
message loop of `Pipe.pipe`: validate through `process_image`, and for
base64 sources add `len(data) * 3 / 4` to the running total, raising the
100MB `ValueError` the moment the total exceeds the limit. -/
def imageItemStep (env : ProbeEnv) (item : PyVal) (total : ℚ) : Except PyErr (PyVal × ℚ) :=
  match process_image env item with
  | .error e => .error e
  | .ok processed_image =>
  match pyGetItem processed_image "source" with
  | .error e => .error e
  | .ok src =>
  match pyGetItem src "type" with
  | .error e => .error e
  | .ok st =>
  if pyEqStr st "base64" then
    match pyGetItem src "data" with
    | .error e => .error e
    | .ok d =>
    match pyLen d with
    | .error e => .error e
    | .ok len =>
      let image_size : ℚ := (len : ℚ) * 3 / 4
      let total₁ := total + image_size
      if total₁ > (MAX_TOTAL_IMAGE_SIZE : ℚ) then
        .error (.valueError (.totalTooLarge total₁))
      else .ok (processed_image, total₁)
  else .ok (processed_image, total)

/-- Inner loop of `Pipe.pipe` over one structured content list, threading
the cumulative inline-image total.  `item["type"]` and `item["text"]`
lookups sit outside any `try`, so their failures escape as exceptions;
failures inside the image branch become an early error return. -/
def processItems (env : ProbeEnv) : List PyVal → ℚ → Step (List PyVal × ℚ)
  | [], total => .ok ([], total)
  | item :: rest, total =>
    match pyGetItem item "type" with
    | .error e => .exn e
    | .ok t =>
      if pyEqStr t "text" then
        match pyGetItem item "text" with
        | .error e => .exn e
        | .ok txt =>
          match processItems env rest total with
          | .ok (pc, total₁) => .ok (.dict [("type", .str "text"), ("text", txt)] :: pc, total₁)
          | .earlyReturn e => .earlyReturn e
          | .exn e => .exn e
      else if pyEqStr t "image_url" then
        match imageItemStep env item total with
        | .error e => .earlyReturn (.failedImage e)
        | .ok (processed_image, total₁) =>
          match processItems env rest total₁ with
          | .ok (pc, total₂) => .ok (processed_image :: pc, total₂)
          | .earlyReturn e => .earlyReturn e
          | .exn e => .exn e
      else
        match processItems env rest total with
        | .ok (pc, total₁) => .ok (pc, total₁)
        | .earlyReturn e => .earlyReturn e
        | .exn e => .exn e

/-- Outer loop of `Pipe.pipe` over the (system-stripped) message list:
structured list content goes through `processItems`; any other content
value is wrapped as a single text block via `message.get("content", "")`.
`message["role"]` is looked up outside any `try`. -/
def processMessages (env : ProbeEnv) : List PyVal → ℚ → Step (List PyVal)
  | [], _ => .ok []
  | message :: rest, total =>
    match pyDictGet message "content" .null with
    | .error e => .exn e
    | .ok contentv =>
      match contentv with
      | .list items =>
        match processItems env items total with
        | .earlyReturn e => .earlyReturn e
        | .exn e => .exn e
        | .ok (processed_content, total₁) =>
          match pyGetItem message "role" with
          | .error e => .exn e
          | .ok role =>
            match processMessages env rest total₁ with
            | .ok pm => .ok (.dict [("role", role), ("content", .list processed_content)] :: pm)
            | .earlyReturn e => .earlyReturn e
            | .exn e => .exn e
      | _ =>
        match pyDictGet message "content" (.str "") with
        | .error e => .exn e
        | .ok c₀ =>
          match pyGetItem message "role" with
          | .error e => .exn e
          | .ok role =>
            match processMessages env rest total with
            | .ok pm =>
                .ok (.dict [("role", role),
                            ("content", .list [.dict [("type", .str "text"), ("text", c₀)]])] :: pm)
            | .earlyReturn e => .earlyReturn e
            | .exn e => .exn e

/-- The `Pipe.Valves` configuration object with its defaults. -/
structure Valves where
  ANTHROPIC_API_KEY : String
  ANTHROPIC_API_VERSION : String := "2023-06-01"
  MAX_TOKENS : Int := 4096
  TEMPERATURE : ℚ := 1
  REQUEST_TIMEOUT : Int := 60
  CONNECTION_TIMEOUT : ℚ := 3.05

/-- The inbound request body consumed by `Pipe.pipe`: the `messages` list
plus the optional keys the code reads (`body["model"]`,
`body.get("max_tokens")`, `body.get("temperature")`, `body.get("stop")`,
`body.get("stream")`); `none` models an absent key. -/
structure Body where
  messages : List PyVal
  model : Option PyVal := none
  max_tokens : Option PyVal := none
  temperature : Option PyVal := none
  stop : Option PyVal := none
  stream : Option PyVal := none

/-- The outbound request payload dict built by `Pipe.pipe`; `none` in
`stop_sequences` / `system` models the key being absent.  The Python code
stores `str(system_message)`; the opaque string rendering of the popped
system content is left as the content value itself. -/
structure Payload where
  model : PyVal
  messages : List PyVal
  max_tokens : PyVal
  temperature : PyVal
  stream : PyVal
  stop_sequences : Option PyVal
  system : Option PyVal

/-- Result of `Pipe.pipe` up to the transport boundary: an error string
returned to the caller before any network call, or a finished payload
handed to `stream_response` / `non_stream_response` according to the
streaming flag. -/
inductive PipeReturn where
  | errText (e : RetErr)
  | send (payload : Payload) (streaming : Bool)

/-- Embedding of `Pipe.pipe` up to the transport hand-off: credential
check, system-message pop, message normalization with cumulative image
accounting, model-id resolution (whose failures are caught and returned
as an invalid-model error string), and payload construction.
An `Except.error` result is an exception escaping `pipe` uncaught. -/
def pipe (valves : Valves) (env : ProbeEnv) (body : Body) : Except PyErr PipeReturn :=
  if valves.ANTHROPIC_API_KEY = "" then .ok (.errText .notConfigured)
  else
    match pop_system_message body.messages with
    | (system_message, messages) =>
      match processMessages env messages 0 with
      | .earlyReturn e => .ok (.errText e)
      | .exn e => .error e
      | .ok processed_messages =>
        match (match body.model with
               | none => .error (.keyError "model")
               | some m => _extract_model_id m : Except PyErr PyVal) with
        | .error e => .ok (.errText (.invalidModel e))
        | .ok model_id =>
          let payload : Payload :=
            { model := model_id
              messages := processed_messages
              max_tokens := body.max_tokens.getD (.int valves.MAX_TOKENS)
              temperature := body.temperature.getD (.float valves.TEMPERATURE)
              stream := body.stream.getD (.bool false)
              stop_sequences :=
                match body.stop with
                | some s => if pyTruthy s then some s else none
                | none => none
              system :=
                match system_message with
                | some m => if pyTruthy m then some m else none
                | none => none }
          .ok (.send payload (pyTruthy (body.stream.getD (.bool false))))

/-- One line of the streaming HTTP response, as seen by the loop in
`Pipe.stream_response` after `iter_lines` and UTF-8 decoding: an empty
(falsy) line, a line without the `"data: "` marker, or a data line whose
`json.loads` result is the given value (`Except.error` modelling a
`json.JSONDecodeError` with its message). -/
inductive SLine where
  | empty
  | plain (s : String)
  | dataLine (r : Except String PyVal)

/-- Rendering of an exception in an f-string (`f"Error: {e}"`); the
numeric interpolations of the size errors are elided here, the structured
constructors carrying the numbers instead. -/
def excMessage : PyErr → String
  | .keyError k => k
  | .typeError m => m
  | .attributeError m => m
  | .indexError => "list index out of range"
  | .valueError .modelEmpty => "Model string is empty"
  | .valueError .unpackMismatch => "not enough values to unpack (expected 2, got 1)"
  | .valueError (.imageTooLargeInline _) => "Image size exceeds 5MB limit"
  | .valueError (.imageTooLargeRemote _) => "Image at URL exceeds 5MB limit"
  | .valueError (.totalTooLarge _) => "Total image size exceeds 100MB limit"
  | .valueError (.intParse s) => "invalid literal for int: " ++ s

/-- Event loop of `Pipe.stream_response` over decoded lines: yields
`delta.text` of each `content_block_delta`, breaks on `message_stop`,
skips other events, skips lines raising `json.JSONDecodeError` or
`KeyError`, and — through the enclosing catch-all handler — yields a
single error fragment and terminates on any other exception. -/
def streamLoop : List SLine → List PyVal
  | [] => []
  | .empty :: rest => streamLoop rest
  | .plain _ :: rest => streamLoop rest
  | .dataLine (.error _) :: rest => streamLoop rest
  | .dataLine (.ok data) :: rest =>
    match pyGetItem data "type" with
    | .error (.keyError _) => streamLoop rest
    | .error e => [.str ("Error: " ++ excMessage e)]
    | .ok t =>
      if pyEqStr t "content_block_delta" then
        match pyContains data "delta" with
        | .error e => [.str ("Error: " ++ excMessage e)]
        | .ok false => streamLoop rest
        | .ok true =>
          match pyGetItem data "delta" with
          | .error (.keyError _) => streamLoop rest
          | .error e => [.str ("Error: " ++ excMessage e)]
          | .ok dv =>
            match pyContains dv "text" with
            | .error e => [.str ("Error: " ++ excMessage e)]
            | .ok false => streamLoop rest
            | .ok true =>
              match pyGetItem dv "text" with
              | .error (.keyError _) => streamLoop rest
              | .error e => [.str ("Error: " ++ excMessage e)]
              | .ok txt => txt :: streamLoop rest
      else if pyEqStr t "message_stop" then []
      else streamLoop rest

/-- Embedding of `Pipe.stream_response` given the transport response:
on a non-200 status, yield exactly one error fragment naming the status
and body and stop without reading the feed; on 200, run the event loop. -/
def stream_response (status : Nat) (respText : String) (lines : List SLine) : List PyVal :=
  if status ≠ 200 then [.str ("Error: HTTP " ++ toString status ++ ": " ++ respText)]
  else streamLoop lines

/-- Scan loop of `Pipe.non_stream_response` over the `content` list:
return `content.get("text", "")` of the first block whose
`content.get("type")` equals "text". -/
def contentScan : List PyVal → Except PyErr (Option PyVal)
  | [] => .ok none
  | content :: rest =>
    match pyDictGet content "type" .null with
    | .error e => .error e
    | .ok t =>
      if pyEqStr t "text" then
        match pyDictGet content "text" (.str "") with
        | .error e => .error e
        | .ok txt => .ok (some txt)
      else contentScan rest

/-- Embedding of `Pipe.non_stream_response` given the transport response:
non-200 statuses become an error string with status and body; on 200 the
JSON body is scanned for its first text block, the empty string returned
when none exists, and any exception is caught and rendered as an error
string. -/
def non_stream_response (status : Nat) (respText : String) (jsonBody : Except String PyVal) : PyVal :=
  if status ≠ 200 then .str ("Error: HTTP " ++ toString status ++ ": " ++ respText)
  else
    match jsonBody with
    | .error m => .str ("Error: " ++ m)
    | .ok res =>
      match pyContains res "content" with
      | .error e => .str ("Error: " ++ excMessage e)
      | .ok false => .str ""
      | .ok true =>
        match pyGetItem res "content" with
        | .error e => .str ("Error: " ++ excMessage e)
        | .ok cv =>
          if pyTruthy cv then
            match pyIterate cv with
            | .error e => .str ("Error: " ++ excMessage e)
            | .ok items =>
              match contentScan items with
              | .error e => .str ("Error: " ++ excMessage e)
              | .ok (some txt) => txt
              | .ok none => .str ""
          else .str ""

/-! ### Canonical protocol shapes

Constructors for the message/item dicts the inbound protocol uses, and
the content blocks the pipe builds from them. -/

/-- A structured text content item `{"type": "text", "text": t}`. -/
def mkTextItem (t : String) : PyVal :=
  .dict [("type", .str "text"), ("text", .str t)]

/-- A structured image content item
`{"type": "image_url", "image_url": {"url": u}}`. -/
def mkImageItem (u : String) : PyVal :=
  .dict [("type", .str "image_url"), ("image_url", .dict [("url", .str u)])]

/-- An inline image data URI `data:<mt>;base64,<d>`. -/
def dataUri (mt d : String) : String :=
  "data:" ++ mt ++ ";base64," ++ d

/-- A message dict `{"role": r, "content": c}`. -/
def mkMsg (role : String) (content : PyVal) : PyVal :=
  .dict [("role", .str role), ("content", content)]

/-- The estimated decoded size `len(d) * 3 / 4` of a base64 payload. -/
def sizeQ (d : String) : ℚ :=
  (d.length : ℚ) * 3 / 4

/-- The content block `process_image` returns for a valid inline image. -/
def inlineImageBlock (mt d : String) : PyVal :=
  .dict [("type", .str "image"),
         ("source", .dict [("type", .str "base64"),
                           ("media_type", .str mt),
                           ("data", .str d)])]

/-- Well-formedness of a declared media type inside a data URI: it starts
with "image" (so the URL passes the `data:image` check) and contains none
of the three delimiter characters the splitting logic keys on. -/
def WfMediaType (mt : String) : Prop :=
  "image".data <+: mt.data ∧ ':' ∉ mt.data ∧ ';' ∉ mt.data ∧ ',' ∉ mt.data

/-! ### Character-list splitting lemmas -/

theorem string_data_append (a b : String) : (a ++ b).data = a.data ++ b.data := by
  cases a; cases b; rfl

theorem string_mk_data (s : String) : String.mk s.data = s := by
  cases s; rfl

theorem splitOnce_not_mem {c : Char} {l : List Char} (h : c ∉ l) :
    splitOnce c l = (l, none) := by
  induction l with
  | nil => rfl
  | cons x xs ih =>
      have hx : x ≠ c := fun hc => h (hc ▸ List.mem_cons_self x xs)
      have hxs : c ∉ xs := fun hm => h (List.mem_cons_of_mem x hm)
      simp [splitOnce, hx, ih hxs]

theorem splitOnce_first {c : Char} {a : List Char} (b : List Char) (h : c ∉ a) :
    splitOnce c (a ++ c :: b) = (a, some b) := by
  induction a with
  | nil => simp [splitOnce]
  | cons x xs ih =>
      have hx : x ≠ c := fun hc => h (hc ▸ List.mem_cons_self x xs)
      have hxs : c ∉ xs := fun hm => h (List.mem_cons_of_mem x hm)
      simp [splitOnce, hx, ih hxs]

theorem pySplit_ne_nil (c : Char) (l : List Char) : pySplit c l ≠ [] := by
  cases l with
  | nil => simp [pySplit]
  | cons x xs =>
      cases h : pySplit c xs with
      | nil => simp [pySplit, h]
      | cons a rest =>
          by_cases hx : x = c <;> simp [pySplit, h, hx]

theorem pySplit_not_mem {c : Char} {l : List Char} (h : c ∉ l) :
    pySplit c l = [l] := by
  induction l with
  | nil => rfl
  | cons x xs ih =>
      have hx : x ≠ c := fun hc => h (hc ▸ List.mem_cons_self x xs)
      have hxs : c ∉ xs := fun hm => h (List.mem_cons_of_mem x hm)
      simp [pySplit, ih hxs, hx]

theorem pySplit_first {c : Char} {a : List Char} (b : List Char) (h : c ∉ a) :
    pySplit c (a ++ c :: b) = a :: pySplit c b := by
  induction a with
  | nil =>
      cases hb : pySplit c b with
      | nil => exact absurd hb (pySplit_ne_nil c b)
      | cons y ys => simp [pySplit, hb]
  | cons x xs ih =>
      have hx : x ≠ c := fun hc => h (hc ▸ List.mem_cons_self x xs)
      have hxs : c ∉ xs := fun hm => h (List.mem_cons_of_mem x hm)
      have := ih hxs
      cases hsp : pySplit c (xs ++ c :: b) with
      | nil => exact absurd hsp (pySplit_ne_nil c _)
      | cons a rest =>
          rw [hsp] at this
          cases this
          simp [pySplit, hsp, hx]

theorem isPrefixOf_append_self (l r : List Char) : l.isPrefixOf (l ++ r) = true := by
  induction l with
  | nil => cases r <;> rfl
  | cons x xs ih => simp [List.isPrefixOf, ih]

theorem strContainsSub_cons (x : Char) (xs n : List Char) :
    strContainsSub (x :: xs) n = (n.isPrefixOf (x :: xs) || strContainsSub xs n) := by
  simp [strContainsSub, List.tails]

theorem singleton_isPrefixOf_cons (c x : Char) (xs : List Char) :
    [c].isPrefixOf (x :: xs) = (c == x) := by
  cases xs <;> simp [List.isPrefixOf]

theorem strContainsSub_singleton (l : List Char) (c : Char) :
    strContainsSub l [c] = true ↔ c ∈ l := by
  induction l with
  | nil => simp [strContainsSub, List.tails, List.isPrefixOf]
  | cons x xs ih =>
      rw [strContainsSub_cons, singleton_isPrefixOf_cons]
      simp only [Bool.or_eq_true, beq_iff_eq, List.mem_cons, ih]

theorem alistLookup_none_any {k : String} {kvs : List (String × PyVal)}
    (h : alistLookup k kvs = none) : kvs.any (fun kv => kv.1 = k) = false := by
  induction kvs with
  | nil => rfl
  | cons kv rest ih =>
      cases kv with
      | mk k₁ v =>
        by_cases hk₁ : k₁ = k
        · simp [alistLookup, hk₁] at h
        · simp only [alistLookup, if_neg hk₁] at h
          simp [hk₁, ih h]

theorem alistLookup_some_any {k : String} {kvs : List (String × PyVal)} {v : PyVal}
    (h : alistLookup k kvs = some v) : kvs.any (fun kv => kv.1 = k) = true := by
  induction kvs with
  | nil => simp [alistLookup] at h
  | cons kv rest ih =>
      cases kv with
      | mk k₁ w =>
        simp only [alistLookup] at h
        by_cases hk₁ : k₁ = k
        · simp [hk₁]
        · simp [hk₁] at h
          simp [hk₁, ih h]

/-! ### Behaviour of `process_image` on canonical image items -/

theorem process_image_inline (env : ProbeEnv) (mt d : String) (h : WfMediaType mt) :
    process_image env (mkImageItem (dataUri mt d)) =
      if sizeQ d > ((MAX_IMAGE_SIZE : Int) : ℚ) then
        .error (.valueError (.imageTooLargeInline (sizeQ d)))
      else .ok (inlineImageBlock mt d) := by
  obtain ⟨hpre, hcolon, hsemi, hcomma⟩ := h
  obtain ⟨r, hr⟩ := hpre
  have hdata : (dataUri mt d).data =
      ("data:".data ++ mt.data ++ ";base64".data) ++ ',' :: d.data := by
    simp only [dataUri, string_data_append]
    simp [List.append_assoc]
  have hstarts : List.isPrefixOf "data:image".data (dataUri mt d).data = true := by
    rw [hdata, ← hr]
    rw [show ("data:".data ++ ("image".data ++ r) ++ ";base64".data) ++ ',' :: d.data =
        "data:image".data ++ (r ++ ";base64".data ++ ',' :: d.data) by
      rw [show ("data:image".data : List Char) = "data:".data ++ "image".data from rfl]
      simp [List.append_assoc]]
    exact isPrefixOf_append_self _ _
  have hnc : ',' ∉ ("data:".data ++ mt.data ++ ";base64".data) := by
    intro hm
    rcases List.mem_append.mp hm with hm | hm
    · rcases List.mem_append.mp hm with hm | hm
      · revert hm; decide
      · exact hcomma hm
    · revert hm; decide
  have hsplit : splitOnce ',' (dataUri mt d).data =
      ("data:".data ++ mt.data ++ ";base64".data, some d.data) := by
    rw [hdata]; exact splitOnce_first _ hnc
  have hmime1 : pySplit ':' ('d' :: 'a' :: 't' :: 'a' :: ':' :: (mt.data ++ [';', 'b', 'a', 's', 'e', '6', '4'])) =
      ['d', 'a', 't', 'a'] :: [mt.data ++ [';', 'b', 'a', 's', 'e', '6', '4']] := by
    show pySplit ':' (['d', 'a', 't', 'a'] ++ ':' :: (mt.data ++ [';', 'b', 'a', 's', 'e', '6', '4'])) = _
    rw [pySplit_first _ (by decide)]
    rw [pySplit_not_mem]
    intro hm
    rcases List.mem_append.mp hm with hm | hm
    · exact hcolon hm
    · revert hm; decide
  have hmime2 : pySplit ';' (mt.data ++ [';', 'b', 'a', 's', 'e', '6', '4']) =
      mt.data :: pySplit ';' ['b', 'a', 's', 'e', '6', '4'] :=
    pySplit_first _ hsemi
  simp [process_image, mkImageItem, pyGetItem, alistLookup, hstarts, hsplit,
    hmime1, hmime2, pyIndex, sizeQ, string_mk_data, inlineImageBlock]

/-! ### Streaming feed shapes -/

/-- The decoded data line of a `content_block_delta` event carrying
delta text `t`. -/
def deltaLine (t : String) : SLine :=
  .dataLine (.ok (.dict [("type", .str "content_block_delta"),
                         ("delta", .dict [("text", .str t)])]))

/-- The decoded data line of a `message_stop` event. -/
def stopLine : SLine :=
  .dataLine (.ok (.dict [("type", .str "message_stop")]))

/-- True when the output sequence contains the string fragment `s`. -/
def yieldedStr (out : List PyVal) (s : String) : Bool :=
  out.any (fun v => pyEqStr v s)

/-- C1: for every feed whose data lines decode to ContentDelta("a"),
ContentDelta("b"), MessageStop followed by any further lines, the streaming
parser produces exactly ["a", "b"] in that order, and nothing is produced
after the MessageStop event is consumed. -/
theorem c1_stream_ordering (respText : String) (rest : List SLine) :
    stream_response 200 respText (deltaLine "a" :: deltaLine "b" :: stopLine :: rest) =
      [.str "a", .str "b"] := rfl

/-- C4 counterexample: a data line whose JSON parses but is not an object
(here the JSON value `42`) is not skipped — the `TypeError` from `data["type"]`
escapes the per-line handlers, so the stream yields an error fragment and
aborts, and the following valid delta "b" is never yielded. -/
theorem c4_malformed_counterexample :
    streamLoop [deltaLine "a", .dataLine (.ok (.int 42)), deltaLine "b"] =
      [.str "a", .str ("Error: " ++ "object is not subscriptable")] ∧
    yieldedStr (streamLoop [deltaLine "a", .dataLine (.ok (.int 42)), deltaLine "b"]) "b" = false :=
  ⟨rfl, rfl⟩

/-- C4 (amended): a data line that fails JSON parsing, or whose parsed JSON
object lacks the type field, or is a delta event whose object-shaped payload
lacks the delta or text field, is skipped and parsing continues with the next
line; in particular a feed with one invalid-JSON line between two valid
ContentDelta events still yields both delta texts.  (A data line whose JSON is
valid but not an object aborts the stream — see the counterexample.) -/
theorem c4_malformed_skip_amended :
    (∀ (m : String) (rest : List SLine),
       streamLoop (.dataLine (.error m) :: rest) = streamLoop rest) ∧
    (∀ (kvs : List (String × PyVal)) (rest : List SLine),
       alistLookup "type" kvs = none →
       streamLoop (.dataLine (.ok (.dict kvs)) :: rest) = streamLoop rest) ∧
    (∀ (kvs : List (String × PyVal)) (rest : List SLine),
       alistLookup "type" kvs = some (.str "content_block_delta") →
       alistLookup "delta" kvs = none →
       streamLoop (.dataLine (.ok (.dict kvs)) :: rest) = streamLoop rest) ∧
    (∀ (kvs dkvs : List (String × PyVal)) (rest : List SLine),
       alistLookup "type" kvs = some (.str "content_block_delta") →
       alistLookup "delta" kvs = some (.dict dkvs) →
       alistLookup "text" dkvs = none →
       streamLoop (.dataLine (.ok (.dict kvs)) :: rest) = streamLoop rest) ∧
    (∀ (m : String),
       streamLoop [deltaLine "a", .dataLine (.error m), deltaLine "b"] = [.str "a", .str "b"]) := by
  refine ⟨fun m rest => rfl, ?_, ?_, ?_, fun m => rfl⟩
  · intro kvs rest h
    simp [streamLoop, pyGetItem, h]
  · intro kvs rest h hd
    simp [streamLoop, pyGetItem, h, pyEqStr, pyContains, alistLookup_none_any hd]
  · intro kvs dkvs rest h hd ht
    simp [streamLoop, pyGetItem, h, hd, pyEqStr, pyContains, alistLookup_none_any ht]
    cases kvs.any (fun kv => decide (kv.1 = "delta")) <;> rfl

/-- C5: for every non-2xx status, the streaming path yields exactly one
fragment, the non-streaming path returns exactly one string, both being the
error text that contains the status code and the body as substrings; the
streaming result ignores the event feed entirely, and both functions are
total (no exception reaches the caller). -/
theorem c5_non2xx_error (status : Nat) (respText : String) (lines : List SLine)
    (jsonBody : Except String PyVal) (h : status < 200 ∨ 300 ≤ status) :
    stream_response status respText lines =
      [.str ("Error: HTTP " ++ toString status ++ ": " ++ respText)] ∧
    non_stream_response status respText jsonBody =
      .str ("Error: HTTP " ++ toString status ++ ": " ++ respText) ∧
    (toString status).data <:+: ("Error: HTTP " ++ toString status ++ ": " ++ respText).data ∧
    respText.data <:+: ("Error: HTTP " ++ toString status ++ ": " ++ respText).data := by
  have hne : status ≠ 200 := by omega
  refine ⟨by simp [stream_response, hne], by simp [non_stream_response, hne], ?_, ?_⟩
  · rw [string_data_append, string_data_append, string_data_append]
    exact ⟨"Error: HTTP ".data, ": ".data ++ respText.data, by simp [List.append_assoc]⟩
  · rw [string_data_append]
    exact ⟨("Error: HTTP " ++ toString status ++ ": ").data, [], by simp⟩

/-- C3: for every inline data-URI image with a well-formed media type, the
validator computes the decoded size as len(base64) * 3 / 4; above 5 MiB it
fails with the image-too-large ValueError carrying that size, and at or below
5 MiB it succeeds with a block whose base64 data is byte-identical to the
input payload and whose media type is the one declared in the URI. -/
theorem c3_per_image_limit (env : ProbeEnv) (mt d : String) (h : WfMediaType mt) :
    (sizeQ d > ((MAX_IMAGE_SIZE : Int) : ℚ) →
       process_image env (mkImageItem (dataUri mt d)) =
         .error (.valueError (.imageTooLargeInline (sizeQ d)))) ∧
    (sizeQ d ≤ ((MAX_IMAGE_SIZE : Int) : ℚ) →
       process_image env (mkImageItem (dataUri mt d)) = .ok (inlineImageBlock mt d)) := by
  rw [process_image_inline env mt d h]
  constructor
  · intro hgt
    rw [if_pos hgt]
  · intro hle
    rw [if_neg (not_lt.mpr hle)]

/-- C7: model resolution returns exactly the substring after the first "."
for every string containing one, returns every other non-empty string
unchanged, and fails with the invalid-model ValueError on the empty string —
which `pipe` surfaces as an error text, not an exception. -/
theorem c7_model_resolution :
    (∀ pre post : List Char, '.' ∉ pre →
       _extract_model_id (.str (String.mk (pre ++ '.' :: post))) = .ok (.str (String.mk post))) ∧
    (∀ s : String, s.data ≠ [] → '.' ∉ s.data → _extract_model_id (.str s) = .ok (.str s)) ∧
    _extract_model_id (.str "") = .error (.valueError .modelEmpty) ∧
    (∀ (valves : Valves) (env : ProbeEnv), valves.ANTHROPIC_API_KEY ≠ "" →
       pipe valves env { messages := [], model := some (.str "") } =
         .ok (.errText (.invalidModel (.valueError .modelEmpty)))) := by
  refine ⟨?_, ?_, rfl, ?_⟩
  · intro pre post hp
    have htr : pyTruthy (.str (String.mk (pre ++ '.' :: post))) = true := by
      simp [pyTruthy]
    have hc : strContainsSub (pre ++ '.' :: post) ['.'] = true :=
      (strContainsSub_singleton _ _).mpr (by simp)
    simp [_extract_model_id, htr, pyContains, hc, pySplitMethodOnce,
      splitOnce_first _ hp, pyIndex]
  · intro s hne hdot
    have htr : pyTruthy (.str s) = true := by simp [pyTruthy, hne]
    have hc : strContainsSub s.data ['.'] = false := by
      rw [← Bool.not_eq_true]
      intro hcc
      exact hdot ((strContainsSub_singleton _ _).mp hcc)
    simp [_extract_model_id, htr, pyContains, hc]
  · intro valves env hkey
    simp [pipe, hkey, pop_system_message, processMessages, _extract_model_id, pyTruthy]

/-- C9 (amended): for every remote-URL image, a successful probe whose
declared content length parses and exceeds 5 MiB fails validation with the
image-too-large ValueError; a probe that raises, or one whose content-length
header is absent, does not block — the URL block is returned.  (A declared
length that does not parse as an integer raises and fails the request — see
the counterexample.) -/
theorem c9_remote_probe_amended (env : ProbeEnv) (u : String)
    (hu : "data:image".data.isPrefixOf u.data = false) :
    (∀ (s : String) (n : Int), env u = .resp (some s) → pyIntOfString s = some n →
       n > MAX_IMAGE_SIZE →
       process_image env (mkImageItem u) = .error (.valueError (.imageTooLargeRemote n))) ∧
    (env u = .exn → process_image env (mkImageItem u) = .ok (urlImageBlock u)) ∧
    (env u = .resp none → process_image env (mkImageItem u) = .ok (urlImageBlock u)) := by
  refine ⟨?_, ?_, ?_⟩
  · intro s n henv hparse hgt
    simp [process_image, mkImageItem, pyGetItem, alistLookup, hu, henv,
      pyIntCoerce, hparse, hgt]
  · intro henv
    simp [process_image, mkImageItem, pyGetItem, alistLookup, hu, henv]
  · intro henv
    simp [process_image, mkImageItem, pyGetItem, alistLookup, hu, henv, pyIntCoerce,
      MAX_IMAGE_SIZE]

def env_badlen : ProbeEnv := fun _ => .resp (some "abc")

/-- C9 counterexample: a probe that succeeds with the unusable
content-length header "abc" makes `int(...)` raise a ValueError that no
handler catches, so validation does not proceed and the whole request fails
with an error text instead of returning an Image block. -/
theorem c9_unusable_length_counterexample :
    process_image env_badlen (mkImageItem "https://example.com/a.png") =
      .error (.valueError (.intParse "abc")) ∧
    pipe { ANTHROPIC_API_KEY := "k" } env_badlen
      { messages := [mkMsg "user" (.list [mkImageItem "https://example.com/a.png"])],
        model := some (.str "claude-x") } =
      .ok (.errText (.failedImage (.valueError (.intParse "abc")))) := ⟨rfl, rfl⟩

/-! ### trial: canonical batches and the cumulative limit -/

/-- Abstract description of one structured content item of a canonical
batch: a text item, or an inline base64 image with its declared media
type and payload. -/
inductive ItemD where
  | text (t : String)
  | image (mt d : String)

/-- The protocol dict of a described item. -/
def itemOf : ItemD → PyVal
  | .text t => mkTextItem t
  | .image mt d => mkImageItem (dataUri mt d)

/-- Estimated decoded size contributed by an item to the running total. -/
def itemSize : ItemD → ℚ
  | .text _ => 0
  | .image _ d => sizeQ d

/-- The normalized content block produced for a described item. -/
def itemBlock : ItemD → PyVal
  | .text t => .dict [("type", .str "text"), ("text", .str t)]
  | .image mt d => inlineImageBlock mt d

/-- Well-formedness of a described item: image items carry a well-formed
media type and pass the per-image limit. -/
def WfItem : ItemD → Prop
  | .text _ => True
  | .image mt d => WfMediaType mt ∧ sizeQ d ≤ ((MAX_IMAGE_SIZE : Int) : ℚ)

/-- Total estimated decoded size of the images of an item list. -/
def itemsSize (items : List ItemD) : ℚ :=
  (items.map itemSize).sum

/-- The message dicts of a canonical batch (role and items per message). -/
def batchMsgs (batch : List (String × List ItemD)) : List PyVal :=
  batch.map (fun p => mkMsg p.1 (.list (p.2.map itemOf)))

/-- Total estimated decoded size of all inline images of a batch. -/
def batchSize (batch : List (String × List ItemD)) : ℚ :=
  (batch.map (fun p => itemsSize p.2)).sum

theorem sizeQ_nonneg (d : String) : 0 ≤ sizeQ d := by
  unfold sizeQ
  positivity

theorem itemSize_nonneg (i : ItemD) : 0 ≤ itemSize i := by
  cases i with
  | text t => simp [itemSize]
  | image mt d => exact sizeQ_nonneg d

theorem itemsSize_nonneg (items : List ItemD) : 0 ≤ itemsSize items := by
  induction items with
  | nil => simp [itemsSize]
  | cons i rest ih =>
      have := itemSize_nonneg i
      simp only [itemsSize, List.map_cons, List.sum_cons] at *
      linarith

theorem string_mk_length (l : List Char) : (String.mk l).length = l.length := rfl

theorem processItems_canonical_ok (env : ProbeEnv) :
    ∀ (items : List ItemD) (total : ℚ), (∀ i ∈ items, WfItem i) →
      total + itemsSize items ≤ ((MAX_TOTAL_IMAGE_SIZE : Int) : ℚ) →
      processItems env (items.map itemOf) total =
        .ok (items.map itemBlock, total + itemsSize items) := by
  intro items
  induction items with
  | nil =>
      intro total _ _
      simp [processItems, itemsSize]
  | cons i rest ih =>
      intro total hwf hle
      have hrest : ∀ j ∈ rest, WfItem j := fun j hj => hwf j (List.mem_cons_of_mem i hj)
      cases i with
      | text t =>
          have h₁ : total + itemsSize rest ≤ ((MAX_TOTAL_IMAGE_SIZE : Int) : ℚ) := by
            simp only [itemsSize, List.map_cons, List.sum_cons, itemSize] at hle ⊢
            linarith
          have hih := ih total hrest h₁
          simp [processItems, itemOf, mkTextItem, pyGetItem, alistLookup, pyEqStr, hih,
            itemBlock, itemsSize, itemSize]
      | image mt d =>
          obtain ⟨hmt, hdle⟩ := hwf (.image mt d) (List.mem_cons_self _ _)
          have hsz : 0 ≤ itemsSize rest := itemsSize_nonneg rest
          have h₁ : total + sizeQ d + itemsSize rest ≤ ((MAX_TOTAL_IMAGE_SIZE : Int) : ℚ) := by
            simp only [itemsSize, List.map_cons, List.sum_cons, itemSize] at hle ⊢
            linarith
          have hpi := process_image_inline env mt d hmt
          rw [if_neg (not_lt.mpr hdle)] at hpi
          simp only [mkImageItem] at hpi
          have hq : (d.length : ℚ) * 3 / 4 = sizeQ d := rfl
          have hih := ih (total + sizeQ d) hrest h₁
          have hnot : ¬ (((MAX_TOTAL_IMAGE_SIZE : Int) : ℚ) < total + sizeQ d) := by
            push_neg
            linarith
          simp [processItems, itemOf, mkImageItem, pyGetItem, alistLookup, pyEqStr,
            imageItemStep, hpi, inlineImageBlock, pyLen]
          rw [hq, if_neg hnot]
          simp [hih, itemBlock, inlineImageBlock, itemsSize, itemSize]
          all_goals ring

theorem processItems_canonical_over (env : ProbeEnv) :
    ∀ (items : List ItemD) (total : ℚ), (∀ i ∈ items, WfItem i) →
      total ≤ ((MAX_TOTAL_IMAGE_SIZE : Int) : ℚ) →
      total + itemsSize items > ((MAX_TOTAL_IMAGE_SIZE : Int) : ℚ) →
      ∃ t, t > ((MAX_TOTAL_IMAGE_SIZE : Int) : ℚ) ∧
        processItems env (items.map itemOf) total =
          .earlyReturn (.failedImage (.valueError (.totalTooLarge t))) := by
  intro items
  induction items with
  | nil =>
      intro total _ hle hgt
      exfalso
      simp [itemsSize] at hgt
      linarith
  | cons i rest ih =>
      intro total hwf hle hgt
      have hrest : ∀ j ∈ rest, WfItem j := fun j hj => hwf j (List.mem_cons_of_mem i hj)
      cases i with
      | text t =>
          have hgt' : total + itemsSize rest > ((MAX_TOTAL_IMAGE_SIZE : Int) : ℚ) := by
            simp only [itemsSize, List.map_cons, List.sum_cons, itemSize] at hgt ⊢
            linarith
          obtain ⟨tt, htt, heq⟩ := ih total hrest hle hgt'
          refine ⟨tt, htt, ?_⟩
          simp [processItems, itemOf, mkTextItem, pyGetItem, alistLookup, pyEqStr, heq]
      | image mt d =>
          obtain ⟨hmt, hdle⟩ := hwf (.image mt d) (List.mem_cons_self _ _)
          have hpi := process_image_inline env mt d hmt
          rw [if_neg (not_lt.mpr hdle)] at hpi
          simp only [mkImageItem] at hpi
          have hq : (d.length : ℚ) * 3 / 4 = sizeQ d := rfl
          by_cases hover : ((MAX_TOTAL_IMAGE_SIZE : Int) : ℚ) < total + sizeQ d
          · refine ⟨total + sizeQ d, hover, ?_⟩
            simp [processItems, itemOf, mkImageItem, pyGetItem, alistLookup, pyEqStr,
              imageItemStep, hpi, inlineImageBlock, pyLen]
            rw [hq, if_pos hover]
          · have hgt' : (total + sizeQ d) + itemsSize rest > ((MAX_TOTAL_IMAGE_SIZE : Int) : ℚ) := by
              simp only [itemsSize, List.map_cons, List.sum_cons, itemSize] at hgt ⊢
              linarith
            obtain ⟨tt, htt, heq⟩ := ih (total + sizeQ d) hrest (not_lt.mp hover) hgt'
            refine ⟨tt, htt, ?_⟩
            simp [processItems, itemOf, mkImageItem, pyGetItem, alistLookup, pyEqStr,
              imageItemStep, hpi, inlineImageBlock, pyLen]
            rw [hq, if_neg hover]
            simp [heq]

theorem processMessages_canonical_over (env : ProbeEnv) :
    ∀ (batch : List (String × List ItemD)) (total : ℚ),
      (∀ p ∈ batch, ∀ i ∈ p.2, WfItem i) →
      total ≤ ((MAX_TOTAL_IMAGE_SIZE : Int) : ℚ) →
      total + batchSize batch > ((MAX_TOTAL_IMAGE_SIZE : Int) : ℚ) →
      ∃ t, t > ((MAX_TOTAL_IMAGE_SIZE : Int) : ℚ) ∧
        processMessages env (batchMsgs batch) total =
          .earlyReturn (.failedImage (.valueError (.totalTooLarge t))) := by
  intro batch
  induction batch with
  | nil =>
      intro total hwf hle hgt
      exfalso
      simp [batchSize] at hgt
      linarith
  | cons p rest ih =>
      intro total hwf hle hgt
      obtain ⟨role, items⟩ := p
      have hwfi : ∀ i ∈ items, WfItem i := fun i hi => hwf (role, items) (List.mem_cons_self _ _) i hi
      have hwfr : ∀ q ∈ rest, ∀ i ∈ q.2, WfItem i :=
        fun q hq i hi => hwf q (List.mem_cons_of_mem _ hq) i hi
      by_cases hover : ((MAX_TOTAL_IMAGE_SIZE : Int) : ℚ) < total + itemsSize items
      · obtain ⟨t, ht, heq⟩ := processItems_canonical_over env items total hwfi hle hover
        refine ⟨t, ht, ?_⟩
        simp [batchMsgs, processMessages, mkMsg, pyDictGet, alistLookup, heq]
      · have hok := processItems_canonical_ok env items total hwfi (not_lt.mp hover)
        have hgt' : (total + itemsSize items) + batchSize rest > ((MAX_TOTAL_IMAGE_SIZE : Int) : ℚ) := by
          simp only [batchSize, List.map_cons, List.sum_cons] at hgt ⊢
          linarith
        obtain ⟨t, ht, heq⟩ := ih (total + itemsSize items) hwfr (not_lt.mp hover) hgt'
        refine ⟨t, ht, ?_⟩
        simp only [batchMsgs, mkMsg] at heq
        simp [batchMsgs, processMessages, mkMsg, pyDictGet, alistLookup, hok, pyGetItem, heq]

theorem pop_system_batch (batch : List (String × List ItemD))
    (h : ∀ p ∈ batch, p.1 ≠ "system") :
    pop_system_message (batchMsgs batch) = (none, batchMsgs batch) := by
  cases batch with
  | nil => rfl
  | cons p rest =>
      have hp : p.1 ≠ "system" := h p (List.mem_cons_self _ _)
      cases p with
      | mk role items =>
        simp [batchMsgs, pop_system_message, mkMsg, pyDictGet, alistLookup, pyEqStr, hp]

theorem pyGetItem_mkImageItem_type (u : String) :
    pyGetItem (mkImageItem u) "type" = .ok (.str "image_url") := rfl

theorem pipe_first_image_error (valves : Valves) (env : ProbeEnv) (role : String)
    (item : PyVal) (more : List PyVal) (pe : PyErr) (mo mtk te sp st : Option PyVal)
    (hkey : valves.ANTHROPIC_API_KEY ≠ "") (hrole : role ≠ "system")
    (htype : pyGetItem item "type" = .ok (.str "image_url"))
    (herr : process_image env item = .error pe) :
    pipe valves env { messages := [mkMsg role (.list (item :: more))], model := mo,
                      max_tokens := mtk, temperature := te, stop := sp, stream := st } =
      .ok (.errText (.failedImage pe)) := by
  simp [pipe, hkey, pop_system_message, mkMsg, pyDictGet, alistLookup, pyEqStr, hrole,
    processMessages, processItems, htype, imageItemStep, herr]

/-- C2 (amended): for every canonical message batch whose inline images each
pass the 5 MiB per-image check and whose estimated decoded sizes sum to more
than 100 MiB, normalization fails with the total-size ValueError, the call
returns that single error text whatever the streaming flag, and no request
payload is built or sent.  (A batch whose sum exceeds 100 MiB through an image
that itself exceeds 5 MiB fails with the per-image error instead — see the
counterexample.) -/
theorem c2_total_limit_amended (valves : Valves) (env : ProbeEnv)
    (batch : List (String × List ItemD)) (mo mtk te sp st : Option PyVal)
    (hkey : valves.ANTHROPIC_API_KEY ≠ "")
    (hroles : ∀ p ∈ batch, p.1 ≠ "system")
    (hwf : ∀ p ∈ batch, ∀ i ∈ p.2, WfItem i)
    (hsum : batchSize batch > ((MAX_TOTAL_IMAGE_SIZE : Int) : ℚ)) :
    ∃ t, t > ((MAX_TOTAL_IMAGE_SIZE : Int) : ℚ) ∧
      pipe valves env { messages := batchMsgs batch, model := mo, max_tokens := mtk,
                        temperature := te, stop := sp, stream := st } =
        .ok (.errText (.failedImage (.valueError (.totalTooLarge t)))) := by
  have h0 : (0 : ℚ) ≤ ((MAX_TOTAL_IMAGE_SIZE : Int) : ℚ) := by
    norm_num [MAX_TOTAL_IMAGE_SIZE]
  have hgt : (0 : ℚ) + batchSize batch > ((MAX_TOTAL_IMAGE_SIZE : Int) : ℚ) := by
    linarith
  obtain ⟨t, ht, heq⟩ := processMessages_canonical_over env batch 0 hwf h0 hgt
  refine ⟨t, ht, ?_⟩
  simp [pipe, hkey, pop_system_batch batch hroles, heq]

/-- Base64 payload of an inline image whose estimated decoded size
(120000000 bytes) exceeds both the per-image and the total limit. -/
def bigData : String := String.mk (List.replicate 160000000 'A')

/-- A one-message batch holding a single oversized inline image. -/
def bigBatch : List (String × List ItemD) := [("user", [ItemD.image "image/png" bigData])]

/-- Discriminator: does a pipe result return the cumulative-size
(`"Total image size exceeds 100MB limit"`) error text? -/
def isTotalSizeErr : Except PyErr PipeReturn → Bool
  | .ok (.errText (.failedImage (.valueError (.totalTooLarge _)))) => true
  | _ => false

theorem bigData_length : bigData.length = 160000000 := by
  rw [bigData, string_mk_length, List.length_replicate]

theorem bigData_size : sizeQ bigData = 120000000 := by
  rw [sizeQ, bigData_length]
  norm_num

/-- C2 counterexample: a batch with one inline image of estimated decoded
size 120000000 bytes sums to more than 100 MiB, yet normalization fails with
the per-image 5MB error, not the total-size error. -/
theorem c2_total_limit_counterexample :
    batchSize bigBatch > ((MAX_TOTAL_IMAGE_SIZE : Int) : ℚ) ∧
    isTotalSizeErr (pipe { ANTHROPIC_API_KEY := "k" } (fun _ => .exn)
      { messages := batchMsgs bigBatch, model := some (.str "claude-x") }) = false := by
  constructor
  · rw [show batchSize bigBatch = sizeQ bigData + 0 + 0 by
      rw [batchSize, bigBatch, List.map_cons, List.map_nil, List.sum_cons, List.sum_nil,
        itemsSize, List.map_cons, List.map_nil, List.sum_cons, List.sum_nil, itemSize]]
    rw [add_zero, add_zero, bigData_size]
    norm_num [MAX_TOTAL_IMAGE_SIZE]
  · have hwfmt : WfMediaType "image/png" :=
      ⟨⟨"/png".data, by decide⟩, by decide, by decide, by decide⟩
    have hpi := process_image_inline (fun _ => ProbeOut.exn) "image/png" bigData hwfmt
    rw [if_pos (by rw [bigData_size]; norm_num [MAX_IMAGE_SIZE])] at hpi
    have hpipe := pipe_first_image_error { ANTHROPIC_API_KEY := "k" } (fun _ => ProbeOut.exn)
      "user" (mkImageItem (dataUri "image/png" bigData)) []
      (.valueError (.imageTooLargeInline (sizeQ bigData)))
      (some (.str "claude-x")) none none none none
      (by decide) (by decide) (pyGetItem_mkImageItem_type _) hpi
    rw [show batchMsgs bigBatch =
        [mkMsg "user" (.list [mkImageItem (dataUri "image/png" bigData)])] by
      rw [batchMsgs, bigBatch, List.map_cons, List.map_nil]
      rfl]
    rw [hpipe]
    rfl

/-- Base64 payload of length 6990506: estimated decoded size 5242879.5
bytes, just below the 5MB per-image limit. -/
def wData : String := String.mk (List.replicate 6990506 'A')

/-- Twenty-one inline images just under the per-image limit: cumulative
estimated size 110100469.5 bytes, above the 100MB total limit. -/
def witBatch : List (String × List ItemD) :=
  [("user", List.replicate 21 (ItemD.image "image/png" wData))]

theorem wData_size : sizeQ wData = 10485759 / 2 := by
  rw [sizeQ, wData, string_mk_length, List.length_replicate]
  norm_num

/-- C2 witness: twenty-one inline images just below the per-image limit sum
to about 105 MiB, and the pipe returns the total-size error text. -/
theorem c2_total_limit_witness :
    (∀ p ∈ witBatch, p.1 ≠ "system") ∧ (∀ p ∈ witBatch, ∀ i ∈ p.2, WfItem i) ∧
    batchSize witBatch > ((MAX_TOTAL_IMAGE_SIZE : Int) : ℚ) ∧
    ∃ t, t > ((MAX_TOTAL_IMAGE_SIZE : Int) : ℚ) ∧
      pipe { ANTHROPIC_API_KEY := "k" } (fun _ => ProbeOut.exn)
        { messages := batchMsgs witBatch, model := some (.str "claude-x"),
          max_tokens := none, temperature := none, stop := none, stream := none } =
        .ok (.errText (.failedImage (.valueError (.totalTooLarge t)))) := by
  have hroles : ∀ p ∈ witBatch, p.1 ≠ "system" := by
    intro p hp
    rw [witBatch, List.mem_singleton] at hp
    subst hp
    decide
  have hwf : ∀ p ∈ witBatch, ∀ i ∈ p.2, WfItem i := by
    intro p hp i hi
    rw [witBatch, List.mem_singleton] at hp
    subst hp
    have hieq := List.eq_of_mem_replicate hi
    subst hieq
    refine ⟨⟨⟨"/png".data, by decide⟩, by decide, by decide, by decide⟩, ?_⟩
    rw [wData_size]
    norm_num [MAX_IMAGE_SIZE]
  have hsum : batchSize witBatch > ((MAX_TOTAL_IMAGE_SIZE : Int) : ℚ) := by
    rw [show batchSize witBatch = itemsSize (List.replicate 21 (ItemD.image "image/png" wData)) + 0 by
      rw [batchSize, witBatch, List.map_cons, List.map_nil, List.sum_cons, List.sum_nil]]
    rw [itemsSize, List.map_replicate, List.sum_replicate, itemSize, add_zero, nsmul_eq_mul,
      wData_size]
    norm_num [MAX_TOTAL_IMAGE_SIZE]
  exact ⟨hroles, hwf, hsum,
    c2_total_limit_amended _ _ witBatch (some (.str "claude-x")) none none none none
      (by decide) hroles hwf hsum⟩


/-! ### Exception propagation, payload invariants and extraction -/

/-- C8 (amended): a failure while processing an image content item (any
exception from `process_image`) aborts the entire request and is returned as
a single error-text value regardless of the requested streaming flag; but a
text item whose expected `text` field is missing makes the `KeyError` escape
`pipe` as an exception rather than an error text. -/
theorem c8_error_propagation_amended :
    (∀ (valves : Valves) (env : ProbeEnv) (role : String) (item : PyVal)
       (more : List PyVal) (pe : PyErr) (mo mtk te sp st : Option PyVal),
       valves.ANTHROPIC_API_KEY ≠ "" → role ≠ "system" →
       pyGetItem item "type" = .ok (.str "image_url") →
       process_image env item = .error pe →
       pipe valves env { messages := [mkMsg role (.list (item :: more))], model := mo,
                         max_tokens := mtk, temperature := te, stop := sp, stream := st } =
         .ok (.errText (.failedImage pe))) ∧
    (∀ (valves : Valves) (env : ProbeEnv) (role : String) (item : PyVal)
       (more : List PyVal) (e : PyErr) (mo mtk te sp st : Option PyVal),
       valves.ANTHROPIC_API_KEY ≠ "" → role ≠ "system" →
       pyGetItem item "type" = .ok (.str "text") →
       pyGetItem item "text" = .error e →
       pipe valves env { messages := [mkMsg role (.list (item :: more))], model := mo,
                         max_tokens := mtk, temperature := te, stop := sp, stream := st } =
         .error e) := by
  constructor
  · intro valves env role item more pe mo mtk te sp st hkey hrole htype herr
    exact pipe_first_image_error valves env role item more pe mo mtk te sp st hkey hrole htype herr
  · intro valves env role item more e mo mtk te sp st hkey hrole htype htext
    simp [pipe, hkey, pop_system_message, mkMsg, pyDictGet, alistLookup, pyEqStr, hrole,
      processMessages, processItems, htype, htext]

/-- C8 counterexample: a content item `{"type": "text"}` missing its `text`
field — exactly the "item missing an expected field" of the claim — makes
`pipe` raise a `KeyError` past the component boundary instead of returning an
error text. -/
theorem c8_exception_counterexample :
    pipe { ANTHROPIC_API_KEY := "k" } (fun _ => .exn)
      { messages := [mkMsg "user" (.list [.dict [("type", .str "text")]])],
        model := some (.str "claude-x") } =
      .error (.keyError "text") := rfl

/-- Recognizer for the text content blocks the pipe builds. -/
def isTextBlockB : PyVal → Bool
  | .dict [("type", .str "text"), ("text", _)] => true
  | _ => false

/-- Recognizer for the image content blocks `process_image` returns. -/
def isImageBlockB : PyVal → Bool
  | .dict [("type", .str "image"), ("source", _)] => true
  | _ => false

theorem process_image_ok_block {env : ProbeEnv} {item b : PyVal}
    (h : process_image env item = .ok b) : isImageBlockB b = true := by
  unfold process_image at h
  repeat' (first | split at h | dsimp only [] at h)
  all_goals (try cases h)
  all_goals rfl

theorem imageItemStep_ok_block {env : ProbeEnv} {item : PyVal} {total : ℚ}
    {b : PyVal} {t₁ : ℚ} (h : imageItemStep env item total = .ok (b, t₁)) :
    isImageBlockB b = true := by
  unfold imageItemStep at h
  cases hpi : process_image env item with
  | error e => rw [hpi] at h; cases h
  | ok pimg =>
      rw [hpi] at h
      have hb : b = pimg := by
        repeat' (first | split at h | dsimp only [] at h)
        all_goals (try cases h)
        all_goals simp_all
      rw [hb]
      exact process_image_ok_block hpi

theorem processItems_blocks (env : ProbeEnv) :
    ∀ (items : List PyVal) (total : ℚ) (pc : List PyVal) (t₁ : ℚ),
      processItems env items total = .ok (pc, t₁) →
      ∀ b ∈ pc, isTextBlockB b = true ∨ isImageBlockB b = true := by
  intro items
  induction items with
  | nil =>
      intro total pc t₁ h b hb
      rw [processItems] at h
      cases h
      simp at hb
  | cons item rest ih =>
      intro total pc t₁ h b hb
      rw [processItems] at h
      cases htype : pyGetItem item "type" with
      | error e => rw [htype] at h; (try dsimp only [] at h); cases h
      | ok t =>
          rw [htype] at h
          try dsimp only [] at h
          by_cases ht : pyEqStr t "text" = true
          · rw [if_pos ht] at h
            cases htext : pyGetItem item "text" with
            | error e => rw [htext] at h; (try dsimp only [] at h); cases h
            | ok txt =>
                rw [htext] at h
                try dsimp only [] at h
                cases hrec : processItems env rest total with
                | ok pr =>
                    obtain ⟨pc₁, total₁⟩ := pr
                    rw [hrec] at h
                    try dsimp only [] at h
                    cases h
                    rcases List.mem_cons.mp hb with hb | hb
                    · left; rw [hb]; rfl
                    · exact ih _ _ _ hrec b hb
                | earlyReturn e => rw [hrec] at h; (try dsimp only [] at h); cases h
                | exn e => rw [hrec] at h; (try dsimp only [] at h); cases h
          · rw [if_neg ht] at h
            by_cases hi : pyEqStr t "image_url" = true
            · rw [if_pos hi] at h
              cases hstep : imageItemStep env item total with
              | error e => rw [hstep] at h; (try dsimp only [] at h); cases h
              | ok pr =>
                  obtain ⟨pimg, total₁⟩ := pr
                  rw [hstep] at h
                  try dsimp only [] at h
                  cases hrec : processItems env rest total₁ with
                  | ok pr₂ =>
                      obtain ⟨pc₁, total₂⟩ := pr₂
                      rw [hrec] at h
                      try dsimp only [] at h
                      cases h
                      rcases List.mem_cons.mp hb with hb | hb
                      · right; rw [hb]; exact imageItemStep_ok_block hstep
                      · exact ih _ _ _ hrec b hb
                  | earlyReturn e => rw [hrec] at h; (try dsimp only [] at h); cases h
                  | exn e => rw [hrec] at h; (try dsimp only [] at h); cases h
            · rw [if_neg hi] at h
              cases hrec : processItems env rest total with
              | ok pr =>
                  obtain ⟨pc₁, total₁⟩ := pr
                  rw [hrec] at h
                  try dsimp only [] at h
                  cases h
                  exact ih _ _ _ hrec b hb
              | earlyReturn e => rw [hrec] at h; (try dsimp only [] at h); cases h
              | exn e => rw [hrec] at h; (try dsimp only [] at h); cases h

theorem processMessages_blocks (env : ProbeEnv) :
    ∀ (msgs : List PyVal) (total : ℚ) (pm : List PyVal),
      processMessages env msgs total = .ok pm →
      ∀ m ∈ pm, ∃ role pc, m = .dict [("role", role), ("content", .list pc)] ∧
        ∀ b ∈ pc, isTextBlockB b = true ∨ isImageBlockB b = true := by
  intro msgs
  induction msgs with
  | nil =>
      intro total pm h m hm
      rw [processMessages] at h
      cases h
      simp at hm
  | cons message rest ih =>
      intro total pm h m hm
      rw [processMessages] at h
      cases hget : pyDictGet message "content" .null with
      | error e => rw [hget] at h; (try dsimp only [] at h); cases h
      | ok contentv =>
          rw [hget] at h
          try dsimp only [] at h
          cases contentv
          case list items =>
              dsimp only [] at h
              cases hitems : processItems env items total with
              | earlyReturn e => rw [hitems] at h; (try dsimp only [] at h); cases h
              | exn e => rw [hitems] at h; (try dsimp only [] at h); cases h
              | ok pr =>
                  obtain ⟨processed_content, total₁⟩ := pr
                  rw [hitems] at h
                  try dsimp only [] at h
                  cases hrole : pyGetItem message "role" with
                  | error e => rw [hrole] at h; (try dsimp only [] at h); cases h
                  | ok role =>
                      rw [hrole] at h
                      try dsimp only [] at h
                      cases hrec : processMessages env rest total₁ with
                      | ok pm₁ =>
                          rw [hrec] at h
                          try dsimp only [] at h
                          cases h
                          rcases List.mem_cons.mp hm with hm | hm
                          · exact ⟨role, processed_content, hm,
                              processItems_blocks env items total processed_content total₁ hitems⟩
                          · exact ih _ _ hrec m hm
                      | earlyReturn e => rw [hrec] at h; (try dsimp only [] at h); cases h
                      | exn e => rw [hrec] at h; (try dsimp only [] at h); cases h
          all_goals (
            dsimp only [] at h
            cases hget₂ : pyDictGet message "content" (.str "") with
            | error e => rw [hget₂] at h; (try dsimp only [] at h); cases h
            | ok c₀ =>
                rw [hget₂] at h
                try dsimp only [] at h
                cases hrole : pyGetItem message "role" with
                | error e => rw [hrole] at h; (try dsimp only [] at h); cases h
                | ok role =>
                    rw [hrole] at h
                    try dsimp only [] at h
                    cases hrec : processMessages env rest total with
                    | ok pm₁ =>
                        rw [hrec] at h
                        try dsimp only [] at h
                        cases h
                        rcases List.mem_cons.mp hm with hm | hm
                        · refine ⟨role, [.dict [("type", .str "text"), ("text", c₀)]], hm, ?_⟩
                          intro b hb
                          rw [List.mem_singleton] at hb
                          left
                          rw [hb]
                          rfl
                        · exact ih _ _ hrec m hm
                    | earlyReturn e => rw [hrec] at h; (try dsimp only [] at h); cases h
                    | exn e => rw [hrec] at h; (try dsimp only [] at h); cases h)

/-- C10: every content block of every message of a payload that `pipe` hands
to the transport is either a text block or an image block; a message whose
content is a plain string contributes exactly one text block carrying that
string, and a message with no content key contributes one text block with the
empty string. -/
theorem c10_payload_blocks :
    (∀ (valves : Valves) (env : ProbeEnv) (body : Body) (p : Payload) (st : Bool),
       pipe valves env body = .ok (.send p st) →
       ∀ m ∈ p.messages, ∃ role pc, m = .dict [("role", role), ("content", .list pc)] ∧
         ∀ b ∈ pc, isTextBlockB b = true ∨ isImageBlockB b = true) ∧
    (∀ (valves : Valves) (env : ProbeEnv) (role s : String),
       valves.ANTHROPIC_API_KEY ≠ "" → role ≠ "system" →
       pipe valves env { messages := [mkMsg role (.str s)], model := some (.str "claude-x") } =
         .ok (.send { model := .str "claude-x",
                      messages := [.dict [("role", .str role),
                                          ("content", .list [.dict [("type", .str "text"),
                                                                    ("text", .str s)]])]],
                      max_tokens := .int valves.MAX_TOKENS,
                      temperature := .float valves.TEMPERATURE,
                      stream := .bool false, stop_sequences := none, system := none } false)) ∧
    (∀ (valves : Valves) (env : ProbeEnv) (role : String),
       valves.ANTHROPIC_API_KEY ≠ "" → role ≠ "system" →
       pipe valves env { messages := [.dict [("role", .str role)]], model := some (.str "claude-x") } =
         .ok (.send { model := .str "claude-x",
                      messages := [.dict [("role", .str role),
                                          ("content", .list [.dict [("type", .str "text"),
                                                                    ("text", .str "")]])]],
                      max_tokens := .int valves.MAX_TOKENS,
                      temperature := .float valves.TEMPERATURE,
                      stream := .bool false, stop_sequences := none, system := none } false)) := by
  have hmid : _extract_model_id (.str "claude-x") = .ok (.str "claude-x") := rfl
  refine ⟨?_, ?_, ?_⟩
  · intro valves env body p st h
    rw [pipe] at h
    by_cases hkey : valves.ANTHROPIC_API_KEY = ""
    · rw [if_pos hkey] at h
      cases h
    · rw [if_neg hkey] at h
      rcases hpop : pop_system_message body.messages with ⟨sys, msgs⟩
      rw [hpop] at h
      try dsimp only [] at h
      cases hpm : processMessages env msgs 0 with
      | earlyReturn e => rw [hpm] at h; (try dsimp only [] at h); cases h
      | exn e => rw [hpm] at h; (try dsimp only [] at h); cases h
      | ok pm =>
          rw [hpm] at h
          try dsimp only [] at h
          cases hmr : (match body.model with
                       | none => .error (.keyError "model")
                       | some m => _extract_model_id m : Except PyErr PyVal) with
          | error e => rw [hmr] at h; (try dsimp only [] at h); cases h
          | ok model_id =>
              rw [hmr] at h
              try dsimp only [] at h
              cases h
              exact processMessages_blocks env msgs 0 pm hpm
  · intro valves env role s hkey hrole
    simp [pipe, hkey, pop_system_message, mkMsg, pyDictGet, alistLookup, pyEqStr, hrole,
      processMessages, pyGetItem, hmid, pyTruthy]
  · intro valves env role hkey hrole
    simp [pipe, hkey, pop_system_message, pyDictGet, alistLookup, pyEqStr, hrole,
      processMessages, pyGetItem, hmid, pyTruthy]

/-- Recognizer: the value is a dict. -/
def isDictB : PyVal → Bool
  | .dict _ => true
  | _ => false

/-- The test `content.get("type") == "text"` of the non-streaming scan,
for dict-shaped blocks. -/
def contentTypeIsText : PyVal → Bool
  | .dict kvs => pyEqStr ((alistLookup "type" kvs).getD .null) "text"
  | _ => false

theorem contentScan_skip_all :
    ∀ (pre l : List PyVal),
      (∀ x ∈ pre, isDictB x = true ∧ contentTypeIsText x = false) →
      contentScan (pre ++ l) = contentScan l := by
  intro pre
  induction pre with
  | nil => intro l _; rfl
  | cons c rest ih =>
      intro l h
      obtain ⟨hd, hnt⟩ := h c (List.mem_cons_self _ _)
      cases c with
      | dict kvs =>
          rw [List.cons_append, contentScan]
          have ht : pyEqStr ((alistLookup "type" kvs).getD .null) "text" = false := by
            simpa [contentTypeIsText] using hnt
          cases hl : alistLookup "type" kvs with
          | some v =>
              rw [hl] at ht
              simp only [Option.getD] at ht
              simp [pyDictGet, hl, ht]
              exact ih l (fun x hx => h x (List.mem_cons_of_mem _ hx))
          | none =>
              rw [hl] at ht
              simp only [Option.getD] at ht
              simp [pyDictGet, hl, ht]
              exact ih l (fun x hx => h x (List.mem_cons_of_mem _ hx))
      | null => simp [isDictB] at hd
      | bool b => simp [isDictB] at hd
      | int n => simp [isDictB] at hd
      | float q => simp [isDictB] at hd
      | str s => simp [isDictB] at hd
      | list xs => simp [isDictB] at hd

theorem contentScan_hit (bkvs : List (String × PyVal)) (rest : List PyVal)
    (h : contentTypeIsText (.dict bkvs) = true) :
    contentScan (.dict bkvs :: rest) = .ok (some ((alistLookup "text" bkvs).getD (.str ""))) := by
  rw [contentScan]
  have ht : pyEqStr ((alistLookup "type" bkvs).getD .null) "text" = true := by
    simpa [contentTypeIsText] using h
  cases hl : alistLookup "type" bkvs with
  | some v =>
      rw [hl] at ht
      simp only [Option.getD] at ht
      cases htxt : alistLookup "text" bkvs with
      | some w => simp [pyDictGet, hl, ht, htxt]
      | none => simp [pyDictGet, hl, ht, htxt]
  | none =>
      rw [hl] at ht
      simp only [Option.getD] at ht
      cases htxt : alistLookup "text" bkvs with
      | some w => simp [pyDictGet, hl, ht, htxt]
      | none => simp [pyDictGet, hl, ht, htxt]

/-- C6: for every 2xx response whose JSON body has a top-level content array
of object-shaped blocks, the non-streaming parser returns the text field
(defaulted to "") of the first block whose type is "text", and returns the
empty string when no such block exists. -/
theorem c6_nonstream_extract (respText : String) (kvs : List (String × PyVal)) (blocks : List PyVal)
    (hcontent : alistLookup "content" kvs = some (.list blocks)) :
    (∀ (pre post : List PyVal) (bkvs : List (String × PyVal)) (tv : PyVal),
       blocks = pre ++ .dict bkvs :: post →
       (∀ x ∈ pre, isDictB x = true ∧ contentTypeIsText x = false) →
       contentTypeIsText (.dict bkvs) = true →
       (alistLookup "text" bkvs).getD (.str "") = tv →
       non_stream_response 200 respText (.ok (.dict kvs)) = tv) ∧
    ((∀ x ∈ blocks, isDictB x = true ∧ contentTypeIsText x = false) →
       non_stream_response 200 respText (.ok (.dict kvs)) = .str "") := by
  have hany := alistLookup_some_any hcontent
  constructor
  · intro pre post bkvs tv hblocks hpre hb htv
    subst hblocks
    subst htv
    simp [non_stream_response, pyContains, hany, pyGetItem, hcontent, pyTruthy, pyIterate,
      contentScan_skip_all pre _ hpre, contentScan_hit bkvs post hb]
  · intro hall
    cases blocks with
    | nil =>
        simp [non_stream_response, pyContains, hany, pyGetItem, hcontent, pyTruthy]
    | cons b brest =>
        have hscan : contentScan (b :: brest) = .ok none := by
          have := contentScan_skip_all (b :: brest) [] hall
          simpa using this
        simp [non_stream_response, pyContains, hany, pyGetItem, hcontent, pyTruthy, pyIterate,
          hscan]


/-! ### Witnesses -/

/-- C3 witness: a concrete 8-character base64 payload (estimated size 6
bytes) passes validation and round-trips its data and media type. -/
theorem c3_per_image_limit_witness :
    WfMediaType "image/png" ∧
    sizeQ "QUJDRA==" ≤ ((MAX_IMAGE_SIZE : Int) : ℚ) ∧
    process_image (fun _ => ProbeOut.exn) (mkImageItem (dataUri "image/png" "QUJDRA==")) =
      .ok (inlineImageBlock "image/png" "QUJDRA==") := by
  have hwf : WfMediaType "image/png" :=
    ⟨⟨"/png".data, by decide⟩, by decide, by decide, by decide⟩
  have hle : sizeQ "QUJDRA==" ≤ ((MAX_IMAGE_SIZE : Int) : ℚ) := by
    rw [sizeQ, show ("QUJDRA==" : String).length = 8 from rfl]
    norm_num [MAX_IMAGE_SIZE]
  exact ⟨hwf, hle,
    (c3_per_image_limit (fun _ => ProbeOut.exn) "image/png" "QUJDRA==" hwf).2 hle⟩

/-- C4 witness: an object-shaped data line without a type field is skipped. -/
theorem c4_malformed_skip_witness :
    alistLookup "type" [("x", PyVal.null)] = none ∧
    streamLoop [.dataLine (.ok (.dict [("x", PyVal.null)]))] = streamLoop [] :=
  ⟨rfl, c4_malformed_skip_amended.2.1 [("x", PyVal.null)] [] rfl⟩

/-- C5 witness: status 401 with body "unauthorized". -/
theorem c5_non2xx_error_witness :
    (401 < 200 ∨ 300 ≤ 401) ∧
    (stream_response 401 "unauthorized" [] = [.str "Error: HTTP 401: unauthorized"] ∧
     non_stream_response 401 "unauthorized" (.ok .null) = .str "Error: HTTP 401: unauthorized" ∧
     "401".data <:+: "Error: HTTP 401: unauthorized".data ∧
     "unauthorized".data <:+: "Error: HTTP 401: unauthorized".data) :=
  ⟨by decide, c5_non2xx_error 401 "unauthorized" [] (.ok .null) (by decide)⟩

/-- C6 witness: content `[{"type": "text", "text": "hello"}]` yields "hello"
and an empty content array yields "". -/
theorem c6_nonstream_extract_witness :
    alistLookup "content" [("content", PyVal.list [.dict [("type", .str "text"), ("text", .str "hello")]])] =
      some (.list [.dict [("type", .str "text"), ("text", .str "hello")]]) ∧
    non_stream_response 200 ""
      (.ok (.dict [("content", PyVal.list [.dict [("type", .str "text"), ("text", .str "hello")]])])) =
      .str "hello" ∧
    non_stream_response 200 "" (.ok (.dict [("content", PyVal.list [])])) = .str "" :=
  ⟨rfl,
    (c6_nonstream_extract "" [("content", PyVal.list [.dict [("type", .str "text"), ("text", .str "hello")]])]
      [.dict [("type", .str "text"), ("text", .str "hello")]] rfl).1
      [] [] [("type", .str "text"), ("text", .str "hello")] (.str "hello")
      rfl (by simp) (by decide) rfl,
    (c6_nonstream_extract "" [("content", PyVal.list [])] [] rfl).2 (by simp)⟩

/-- C7 witness: "anthropic.claude-x" resolves to "claude-x", "claude-x" is
returned unchanged, and the empty model string makes `pipe` return the
invalid-model error text. -/
theorem c7_model_resolution_witness :
    ('.' ∉ "anthropic".data) ∧
    _extract_model_id (.str (String.mk ("anthropic".data ++ '.' :: "claude-x".data))) =
      .ok (.str (String.mk "claude-x".data)) ∧
    _extract_model_id (.str "claude-x") = .ok (.str "claude-x") ∧
    pipe { ANTHROPIC_API_KEY := "k" } (fun _ => ProbeOut.exn)
      { messages := [], model := some (.str "") } =
      .ok (.errText (.invalidModel (.valueError .modelEmpty))) :=
  ⟨by decide,
    c7_model_resolution.1 "anthropic".data "claude-x".data (by decide),
    c7_model_resolution.2.1 "claude-x" (by decide) (by decide),
    c7_model_resolution.2.2.2 { ANTHROPIC_API_KEY := "k" } (fun _ => ProbeOut.exn) (by decide)⟩

/-- C8 witness: an image item missing its `image_url` field is returned as an
error text, while a text item missing its `text` field raises. -/
theorem c8_error_propagation_witness :
    pyGetItem (.dict [("type", PyVal.str "image_url")]) "type" = .ok (.str "image_url") ∧
    process_image (fun _ => ProbeOut.exn) (.dict [("type", PyVal.str "image_url")]) =
      .error (.keyError "image_url") ∧
    pipe { ANTHROPIC_API_KEY := "k" } (fun _ => ProbeOut.exn)
      { messages := [mkMsg "user" (.list [.dict [("type", PyVal.str "image_url")]])],
        model := some (.str "claude-x"), max_tokens := none, temperature := none,
        stop := none, stream := some (.bool true) } =
      .ok (.errText (.failedImage (.keyError "image_url"))) ∧
    pipe { ANTHROPIC_API_KEY := "k" } (fun _ => ProbeOut.exn)
      { messages := [mkMsg "user" (.list [.dict [("type", PyVal.str "text")]])],
        model := some (.str "claude-x"), max_tokens := none, temperature := none,
        stop := none, stream := some (.bool true) } =
      .error (.keyError "text") :=
  ⟨rfl, rfl,
    c8_error_propagation_amended.1 { ANTHROPIC_API_KEY := "k" } (fun _ => ProbeOut.exn)
      "user" (.dict [("type", PyVal.str "image_url")]) [] (.keyError "image_url")
      (some (.str "claude-x")) none none none (some (.bool true))
      (by decide) (by decide) rfl rfl,
    c8_error_propagation_amended.2 { ANTHROPIC_API_KEY := "k" } (fun _ => ProbeOut.exn)
      "user" (.dict [("type", PyVal.str "text")]) [] (.keyError "text")
      (some (.str "claude-x")) none none none (some (.bool true))
      (by decide) (by decide) rfl rfl⟩

/-- C9 witness: a 9999999-byte declared length fails, while a raising probe
and an absent content-length header both leave validation non-blocking. -/
theorem c9_remote_probe_witness :
    ("data:image".data.isPrefixOf "https://example.com/a.png".data = false) ∧
    process_image (fun _ => ProbeOut.resp (some "9999999"))
      (mkImageItem "https://example.com/a.png") =
      .error (.valueError (.imageTooLargeRemote 9999999)) ∧
    process_image (fun _ => ProbeOut.exn) (mkImageItem "https://example.com/a.png") =
      .ok (urlImageBlock "https://example.com/a.png") ∧
    process_image (fun _ => ProbeOut.resp none) (mkImageItem "https://example.com/a.png") =
      .ok (urlImageBlock "https://example.com/a.png") :=
  ⟨by decide,
    (c9_remote_probe_amended (fun _ => ProbeOut.resp (some "9999999"))
      "https://example.com/a.png" (by decide)).1 "9999999" 9999999 rfl rfl (by decide),
    (c9_remote_probe_amended (fun _ => ProbeOut.exn)
      "https://example.com/a.png" (by decide)).2.1 rfl,
    (c9_remote_probe_amended (fun _ => ProbeOut.resp none)
      "https://example.com/a.png" (by decide)).2.2 rfl⟩

/-- C10 witness: a plain-string message and a content-less message wrap into
single text blocks, and the resulting payload satisfies the block shape
invariant. -/
theorem c10_payload_blocks_witness :
    pipe { ANTHROPIC_API_KEY := "k" } (fun _ => ProbeOut.exn)
      { messages := [mkMsg "user" (.str "hi")], model := some (.str "claude-x") } =
      .ok (.send { model := .str "claude-x",
                   messages := [.dict [("role", .str "user"),
                                       ("content", .list [.dict [("type", .str "text"),
                                                                 ("text", .str "hi")]])]],
                   max_tokens := .int 4096, temperature := .float 1,
                   stream := .bool false, stop_sequences := none, system := none } false) ∧
    pipe { ANTHROPIC_API_KEY := "k" } (fun _ => ProbeOut.exn)
      { messages := [.dict [("role", .str "user")]], model := some (.str "claude-x") } =
      .ok (.send { model := .str "claude-x",
                   messages := [.dict [("role", .str "user"),
                                       ("content", .list [.dict [("type", .str "text"),
                                                                 ("text", .str "")]])]],
                   max_tokens := .int 4096, temperature := .float 1,
                   stream := .bool false, stop_sequences := none, system := none } false) ∧
    (∀ m ∈ [PyVal.dict [("role", .str "user"),
                        ("content", PyVal.list [.dict [("type", .str "text"),
                                                       ("text", .str "hi")]])]],
       ∃ role pc, m = .dict [("role", role), ("content", .list pc)] ∧
         ∀ b ∈ pc, isTextBlockB b = true ∨ isImageBlockB b = true) :=
  ⟨c10_payload_blocks.2.1 { ANTHROPIC_API_KEY := "k" } (fun _ => ProbeOut.exn) "user" "hi"
      (by decide) (by decide),
   c10_payload_blocks.2.2 { ANTHROPIC_API_KEY := "k" } (fun _ => ProbeOut.exn) "user"
      (by decide) (by decide),
   c10_payload_blocks.1 { ANTHROPIC_API_KEY := "k" } (fun _ => ProbeOut.exn)
      { messages := [mkMsg "user" (.str "hi")], model := some (.str "claude-x") }
      { model := .str "claude-x",
        messages := [.dict [("role", .str "user"),
                            ("content", .list [.dict [("type", .str "text"),
                                                      ("text", .str "hi")]])]],
        max_tokens := .int 4096, temperature := .float 1,
        stream := .bool false, stop_sequences := none, system := none } false
      (c10_payload_blocks.2.1 { ANTHROPIC_API_KEY := "k" } (fun _ => ProbeOut.exn) "user" "hi"
        (by decide) (by decide))⟩


end AnthropicPipe
